import Mathlib

/-!
Shallow embedding of the GitShame Roaster backend (`server/main.py`).

Modelling conventions:
* Python numbers held in the loosely-typed `Dict[str, Any]` analysis bundles
  are modelled as `Rat` (the code compares them against decimal literals such
  as `0.4` and `0.21`; the model uses exact rationals for these literals).
* A Python `dict.get(key, default)` access is modelled by an `Option` field
  plus `Option.getD`; an insertion-ordered mapping value becomes an
  association list `List (String × Rat)` read with `dictGet`.
* Each `roasts.append(...)` guarded by an `if` becomes a zero-or-one element
  list, and sequential appends become list concatenation, preserving order.
* The `/generate-roasts` handler is modelled as a function of the environment
  credential and of the outcome of the external AI call; a raised Python
  exception is an `Except.error`.  Note that FastAPI/Starlette
  `HTTPException` is a subclass of `Exception`, so the handler's broad
  `except Exception` clause catches the `HTTPException` raised for a missing
  credential: the model reflects this.
-/

namespace GitShame

/-- Pydantic model `GitHubUserData` from `server/main.py`. -/
structure GitHubUserData where
  login : String
  name : Option String
  bio : Option String
  public_repos : Nat
  followers : Nat
  following : Nat
  created_at : String
  avatar_url : String
deriving Repr, DecidableEq

/-- Pydantic model `GitHubRepo` from `server/main.py`. -/
structure GitHubRepo where
  name : String
  description : Option String
  language : Option String
  stargazers_count : Nat
  forks_count : Nat
  created_at : String
  updated_at : String
deriving Repr, DecidableEq

/-- Pydantic model `GitHubCommit` from `server/main.py`. -/
structure GitHubCommit where
  message : String
  date : String
deriving Repr, DecidableEq

/-- One entry of `emojiUsage.topEmojis`; the code reads `e.get('emoji', '')`. -/
structure EmojiEntry where
  emoji : Option String
  count : Option Rat
deriving Repr, DecidableEq

/-- The keys of `analysis.commitPatterns` that the code reads. -/
structure CommitPatterns where
  timeOfDay : Option (List (String × Rat))
deriving Repr, DecidableEq

/-- The keys of `analysis.emojiUsage` that the code reads. -/
structure EmojiUsage where
  count : Option Rat
  topEmojis : Option (List EmojiEntry)
deriving Repr, DecidableEq

/-- The keys of `analysis.commitLanguage` that the code reads. -/
structure CommitLanguage where
  questionableMessages : Option (List String)
  averageLength : Option Rat
deriving Repr, DecidableEq

/-- The keys of `analysis.repoAnalysis` that the code reads. -/
structure RepoAnalysis where
  languages : Option (List (String × Rat))
  abandonedRepos : Option Rat
  oneCommitWonders : Option Rat
  namingPatterns : Option (List String)
deriving Repr, DecidableEq

/-- The keys of `analysis.userStats` that the code reads. -/
structure UserStats where
  accountAge : Option Rat
  followRatio : Option Rat
  repoToStarRatio : Option Rat
deriving Repr, DecidableEq

/-- Pydantic model `UserAnalysis`: five loosely-typed mappings. -/
structure UserAnalysis where
  commitPatterns : CommitPatterns
  emojiUsage : EmojiUsage
  commitLanguage : CommitLanguage
  repoAnalysis : RepoAnalysis
  userStats : UserStats
deriving Repr, DecidableEq

/-- Pydantic model `RoastRequest`: the validated request aggregate. -/
structure RoastRequest where
  user : GitHubUserData
  repos : List GitHubRepo
  commits : List GitHubCommit
  analysis : UserAnalysis
deriving Repr, DecidableEq

/-- Python `d.get(k, default)` on an insertion-ordered numeric mapping. -/
def dictGet (m : List (String × Rat)) (k : String) (d : Rat) : Rat :=
  ((m.find? (fun kv => kv.1 == k)).map Prod.snd).getD d

/-- Python `sum(d.values())` on a numeric mapping. -/
def dictValuesSum (m : List (String × Rat)) : Rat :=
  (m.map Prod.snd).sum

/-! The individual roast strings appended by `generate_fallback_roasts`. -/

/-- Rule 1 roast: account younger than a year. -/
def newAccountRoast (login : String) : String :=
  "Welcome to GitHub, " ++ login ++ "! Still figuring out what a commit is, I see. 🐣"

/-- Rule 2 roast: account older than ten years; `years` is `account_age // 365`. -/
def veteranRoast (years : Int) : String :=
  "Been here " ++ toString years ++
    " years and still haven't learned to write decent commit messages? Classic! 👴"

/-- Rule 3 roast: night commits above 40% of all commits. -/
def nightOwlRoast : String :=
  "I see you're a fellow member of the '3 AM commit club'. Sleep is overrated anyway! 🦉"

/-- Rule 4 roast (first branch): more than ten emojis. -/
def emojiOveruseRoast : String :=
  "Your commits have more emojis than a teenager's text messages. Very professional! 🎭"

/-- Rule 4 roast (second branch): exactly zero emojis. -/
def emojiDroughtRoast : String :=
  "Zero emojis in your commits? What are you, a robot? Even robots use emojis now! 🤖"

/-- Rule 5 roast: at least one abandoned repository; mentions the count. -/
def abandonedReposRoast (n : Rat) : String :=
  "You have " ++ toString n ++
    " abandoned repos. GitHub isn't a graveyard for your coding dreams! ⚰️"

/-- Rule 6 roast: follow ratio below one half. -/
def followRatioRoast : String :=
  "Following more people than follow you back? That's the developer equivalent of unrequited love! 💔"

/-- The three generic filler roasts appended when rules 1 to 6 yield fewer than 3. -/
def fillerRoasts : List String :=
  ["Your code commits tell a story... mostly about debugging at 2 AM! 📚",
   "I've seen more organization in a tornado than in your repository structure! 🌪️",
   "Your commit messages are like modern art - nobody understands them, but everyone pretends they do! 🎨"]

/-- Account-age rule of `generate_fallback_roasts` (`if`/`elif`, lines 244-248). -/
def accountAgeRoasts (user : GitHubUserData) (analysis : UserAnalysis) : List String :=
  let account_age := analysis.userStats.accountAge.getD 0
  if account_age < 365 then [newAccountRoast user.login]
  else if account_age > 3650 then [veteranRoast ⌊account_age / 365⌋]
  else []

/-- Night-owl rule of `generate_fallback_roasts` (lines 251-253). -/
def nightOwlRoasts (analysis : UserAnalysis) : List String :=
  let commit_times := analysis.commitPatterns.timeOfDay.getD []
  if dictGet commit_times "night" 0 > dictValuesSum commit_times * 0.4 then [nightOwlRoast]
  else []

/-- Emoji rule of `generate_fallback_roasts` (`if`/`elif`, lines 256-260). -/
def emojiRoastsFB (analysis : UserAnalysis) : List String :=
  let emoji_count := analysis.emojiUsage.count.getD 0
  if emoji_count > 10 then [emojiOveruseRoast]
  else if emoji_count = 0 then [emojiDroughtRoast]
  else []

/-- Abandoned-repos rule of `generate_fallback_roasts` (lines 263-265). -/
def abandonedRoasts (analysis : UserAnalysis) : List String :=
  let abandoned_repos := analysis.repoAnalysis.abandonedRepos.getD 0
  if abandoned_repos > 0 then [abandonedReposRoast abandoned_repos]
  else []

/-- Follow-ratio rule of `generate_fallback_roasts` (lines 268-270); note the
default 0 for a missing `followRatio` key. -/
def followRatioRoasts (analysis : UserAnalysis) : List String :=
  let follow_ratio := analysis.userStats.followRatio.getD 0
  if follow_ratio < 0.5 then [followRatioRoast]
  else []

/-- The roasts produced by rules 1 to 6 of `generate_fallback_roasts`,
in evaluation order (each guarded `append` is a zero-or-one element list). -/
def fallbackRuleRoasts (request : RoastRequest) : List String :=
  accountAgeRoasts request.user request.analysis
    ++ nightOwlRoasts request.analysis
    ++ emojiRoastsFB request.analysis
    ++ abandonedRoasts request.analysis
    ++ followRatioRoasts request.analysis

/-- `generate_fallback_roasts` from `server/main.py` (lines 235-280): run the
rules, pad with the three fillers when fewer than 3 roasts were produced,
and return at most the first 6. -/
def generate_fallback_roasts (request : RoastRequest) : List String :=
  let roasts := fallbackRuleRoasts request
  let roasts := if roasts.length < 3 then roasts ++ fillerRoasts else roasts
  roasts.take 6

/-! The `/analyze-roast-potential` scorer. -/

/-- Scorer rule 1 (lines 293-295): non-empty `questionableMessages`. -/
def questionableItems (analysis : UserAnalysis) : List (Nat × String) :=
  if analysis.commitLanguage.questionableMessages.getD [] ≠ [] then
    [(20, "questionable_commits")]
  else []

/-- Scorer rule 2 (`if`/`elif`, lines 297-302): emoji count over 15,
else emoji count zero. -/
def emojiItems (analysis : UserAnalysis) : List (Nat × String) :=
  if analysis.emojiUsage.count.getD 0 > 15 then [(15, "emoji_overuse")]
  else if analysis.emojiUsage.count.getD 0 = 0 then [(10, "emoji_drought")]
  else []

/-- Scorer rule 3 (lines 304-306): more than two abandoned repos. -/
def abandonItems (analysis : UserAnalysis) : List (Nat × String) :=
  if analysis.repoAnalysis.abandonedRepos.getD 0 > 2 then
    [(25, "repo_abandonment")]
  else []

/-- Scorer rule 4 (lines 308-310): follow ratio below 0.3, defaulting a
missing `followRatio` key to 1. -/
def socialItems (analysis : UserAnalysis) : List (Nat × String) :=
  if analysis.userStats.followRatio.getD 1 < 0.3 then
    [(15, "social_awkwardness")]
  else []

/-- Scorer rule 5 (lines 312-315): night commits above 50% of all commits. -/
def nightItems (analysis : UserAnalysis) : List (Nat × String) :=
  let commit_times := analysis.commitPatterns.timeOfDay.getD []
  if dictGet commit_times "night" 0 > dictValuesSum commit_times * 0.5 then
    [(20, "night_owl_coding")]
  else []

/-- Scorer rule 6 (lines 317-319): average message length below 10. -/
def lazyItems (analysis : UserAnalysis) : List (Nat × String) :=
  if analysis.commitLanguage.averageLength.getD 0 < 10 then
    [(10, "lazy_commit_messages")]
  else []

/-- The weight/factor pairs accumulated by `analyze_roast_potential`
(lines 293-319): each `roast_score += w; roast_factors.append(t)` pair becomes
a zero-or-one element list of `(w, t)`, concatenated in evaluation order. -/
def scorerItems (request : RoastRequest) : List (Nat × String) :=
  questionableItems request.analysis
    ++ emojiItems request.analysis
    ++ abandonItems request.analysis
    ++ socialItems request.analysis
    ++ nightItems request.analysis
    ++ lazyItems request.analysis

/-- The final `roast_score` of `analyze_roast_potential`. -/
def roast_score (request : RoastRequest) : Nat :=
  ((scorerItems request).map Prod.fst).sum

/-- The final `roast_factors` of `analyze_roast_potential`. -/
def roast_factors (request : RoastRequest) : List String :=
  (scorerItems request).map Prod.snd

/-- The level/message `if`/`elif`/`else` chain of `analyze_roast_potential`
(lines 322-330). -/
def roastLevelMessage (score : Nat) : String × String :=
  if score ≥ 60 then ("highly_roastable", "This developer is a goldmine for roasts! 🔥")
  else if score ≥ 30 then ("moderately_roastable", "Some good roast material here. 😏")
  else ("minimally_roastable", "This developer is suspiciously well-behaved... 🤔")

/-- The constant `suggestions` list of the scorer response. -/
def suggestionsList : List String :=
  ["Try committing at 3 AM for bonus roast points!",
   "Add more emojis to your commit messages!",
   "Create a repo called 'my-awesome-project' and abandon it!",
   "Write commit messages like 'fix stuff' and 'idk anymore'!"]

/-- Response body of `/analyze-roast-potential`. -/
structure RoastabilityResult where
  roast_score : Nat
  roastability_level : String
  message : String
  roast_factors : List String
  suggestions : List String
deriving Repr, DecidableEq

/-- `analyze_roast_potential` from `server/main.py` (lines 282-343). -/
def analyze_roast_potential (request : RoastRequest) : RoastabilityResult :=
  let score := roast_score request
  { roast_score := score
    roastability_level := (roastLevelMessage score).1
    message := (roastLevelMessage score).2
    roast_factors := roast_factors request
    suggestions := suggestionsList }

/-! The prompt builder `create_roast_prompt`. -/

/-- Python `x or default` on an optional string: `None` and the empty string
both fall back to the default. -/
def orDefault (o : Option String) (d : String) : String :=
  let v := o.getD ""
  if v = "" then d else v

/-- The language names interpolated as "Primary Languages" by
`create_roast_prompt` (line 95): the first three keys of
`analysis.repoAnalysis.languages` in the mapping's insertion order. -/
def promptLanguages (analysis : UserAnalysis) : List String :=
  ((analysis.repoAnalysis.languages.getD []).map Prod.fst).take 3

/-- Python `max(commit_times, key=commit_times.get) if commit_times else
'unknown'` (line 99): the first key of maximal value, in insertion order. -/
def mostActiveTime (times : List (String × Rat)) : String :=
  match times with
  | [] => "unknown"
  | kv :: rest => (rest.foldl (fun best p => if p.2 > best.2 then p else best) kv).1

/-- Round a rational to the nearest integer, ties to the even integer
(the rounding used by Python fixed-point formatting). -/
def roundHalfToEven (q : Rat) : Int :=
  let fl := ⌊q⌋
  if q - fl < 1/2 then fl
  else if q - fl > 1/2 then fl + 1
  else if 2 ∣ fl then fl else fl + 1

/-- Python `f"{q:.1f}"`: one-decimal fixed-point rendering of a number. -/
def formatFixed1 (q : Rat) : String :=
  let n := roundHalfToEven (q * 10)
  (if n < 0 then "-" else "") ++ toString (n.natAbs / 10) ++ "." ++ toString (n.natAbs % 10)

/-- One line of the "RECENT REPOS" block (line 151). -/
def repoLine (repo : GitHubRepo) : String :=
  "- " ++ repo.name ++ ": " ++ orDefault repo.description "No description"
    ++ " (" ++ orDefault repo.language "Unknown language" ++ ")"

/-- `create_roast_prompt` from `server/main.py` (lines 81-179): formats the
request into the fixed instruction template.  Every analysis key is read
defensively with a default; the function is total. -/
def create_roast_prompt (user_data : RoastRequest) : String :=
  let user := user_data.user
  let repos := user_data.repos
  let commits := user_data.commits
  let analysis := user_data.analysis
  let account_age := analysis.userStats.accountAge.getD 0
  let repo_count := repos.length
  let commit_count := commits.length
  let languages := promptLanguages analysis
  let commit_times := analysis.commitPatterns.timeOfDay.getD []
  let most_active_time := mostActiveTime commit_times
  let questionable_commits := (analysis.commitLanguage.questionableMessages.getD []).take 5
  let emoji_count := analysis.emojiUsage.count.getD 0
  let top_emojis := analysis.emojiUsage.topEmojis.getD []
  let abandoned_repos := analysis.repoAnalysis.abandonedRepos.getD 0
  let one_commit_wonders := analysis.repoAnalysis.oneCommitWonders.getD 0
  let naming_patterns := analysis.repoAnalysis.namingPatterns.getD []
  let follow_ratio := analysis.userStats.followRatio.getD 0
  let repo_to_star_ratio := analysis.userStats.repoToStarRatio.getD 0
  "\nYou are a witty, sarcastic GitHub code reviewer who specializes in roasting developers based on their GitHub activity. \nCreate 5-8 clever, humorous roasts for this GitHub user. Be playful and teasing, but never mean-spirited or personally attacking.\n\nUSER PROFILE:\n- Username: "
    ++ user.login
    ++ "\n- Name: " ++ orDefault user.name "No name provided"
    ++ "\n- Bio: " ++ orDefault user.bio "No bio"
    ++ "\n- Account Age: " ++ toString account_age ++ " days"
    ++ "\n- Public Repos: " ++ toString user.public_repos
    ++ "\n- Followers: " ++ toString user.followers
    ++ "\n- Following: " ++ toString user.following
    ++ "\n\nCODING PATTERNS:\n- Primary Languages: "
    ++ (if languages ≠ [] then String.intercalate ", " languages else "None detected")
    ++ "\n- Most Active Time: " ++ most_active_time
    ++ "\n- Total Commits Analyzed: " ++ toString commit_count
    ++ "\n- Emoji Usage: " ++ toString emoji_count ++ " emojis found"
    ++ "\n- Top Emojis: "
    ++ String.intercalate ", " ((top_emojis.take 3).map (fun e => e.emoji.getD ""))
    ++ "\n\nREPOSITORY INSIGHTS:\n- Total Repos: " ++ toString repo_count
    ++ "\n- Abandoned Repos: " ++ toString abandoned_repos
    ++ "\n- One-Commit Wonders: " ++ toString one_commit_wonders
    ++ "\n- Naming Patterns: " ++ String.intercalate ", " (naming_patterns.take 3)
    ++ "\n- Average Stars per Repo: " ++ formatFixed1 repo_to_star_ratio
    ++ "\n\nSOCIAL METRICS:\n- Follow Ratio: " ++ formatFixed1 follow_ratio
    ++ " (followers/following)\n\nQUESTIONABLE COMMIT MESSAGES:\n"
    ++ String.intercalate "\n" ((questionable_commits.take 3).map (fun msg => "- " ++ msg))
    ++ "\n\nRECENT REPOS:\n"
    ++ String.intercalate "\n" ((repos.take 3).map repoLine)
    ++ "\n\nCreate roasts that reference specific patterns you see. Focus on:\n1. Coding habits and commit patterns\n2. Repository naming and organization\n3. Commit message quality\n4. Social coding behavior\n5. Language choices and project patterns\n\nMake each roast:\n- Specific to their actual GitHub activity\n- Clever and witty, not mean\n- Tech-savvy and programmer-humor focused\n- About 1-2 sentences each\n\nCategories for roasts:\n- coding_habits: About their coding patterns, commit times, etc.\n- repo_patterns: About their repositories, naming, organization\n- commit_messages: About their commit message quality\n- social_metrics: About followers, stars, social coding behavior\n- general: Overall developer personality/style\n\nSeverity levels:\n- mild: Gentle teasing\n- medium: More pointed but still playful\n- savage: Brutally honest but still humorous\n"

/-! The `/generate-roasts` handler. -/

/-- One structured roast line returned by the AI call (`RoastLine`). -/
structure RoastLine where
  text : String
  category : String
  severity : String
deriving Repr, DecidableEq

/-- Outcome of the external generative call plus response parsing, as seen by
the handler: the call (or parsing) raises some exception, or `response.parsed`
is `None`, or it is a `GeneratedRoasts` value. -/
inductive AiOutcome where
  | raises : AiOutcome
  | parsedNone : AiOutcome
  | parsed (roasts : List RoastLine) (overall_tone : String) : AiOutcome
deriving Repr, DecidableEq

/-- Response of `/generate-roasts` as seen by the client: HTTP status plus the
JSON body fields. -/
structure GenerateRoastsResponse where
  status : Nat
  roasts : List String
  source : String
  overall_tone : String
  metadata : Option (List String × List String)
deriving Repr, DecidableEq

/-- The fallback response body returned at lines 214 and 233. -/
def fallbackResponse (request : RoastRequest) : GenerateRoastsResponse :=
  { status := 200
    roasts := generate_fallback_roasts request
    source := "fallback"
    overall_tone := "mysterious"
    metadata := none }

/-- `generate_roasts` from `server/main.py` (lines 181-233), as a function of
the `GEMINI_API_KEY` environment value and of the AI-call outcome.  The `try`
body is an `Except` value whose `error` constructor models a raised exception
(status and detail); the trailing `match` models `except Exception`, which
catches every exception — including the `HTTPException(500, ...)` raised for
a missing credential, since Starlette's `HTTPException` subclasses
`Exception` — and converts it to the fallback response. -/
def generate_roasts (gemini_api_key : Option String) (ai : AiOutcome)
    (request : RoastRequest) : GenerateRoastsResponse :=
  let tryBody : Except (Nat × String) GenerateRoastsResponse :=
    if gemini_api_key.getD "" = "" then
      Except.error (500,
        "Gemini API key not configured. Please set GEMINI_API_KEY environment variable.")
    else
      let _prompt := create_roast_prompt request
      match ai with
      | AiOutcome.raises => Except.error (500, "client error")
      | AiOutcome.parsedNone => Except.ok (fallbackResponse request)
      | AiOutcome.parsed roasts overall_tone =>
          if roasts = [] then Except.ok (fallbackResponse request)
          else
            Except.ok
              { status := 200
                roasts := roasts.map RoastLine.text
                source := "ai"
                overall_tone := overall_tone
                metadata := some (roasts.map RoastLine.category, roasts.map RoastLine.severity) }
  match tryBody with
  | Except.ok r => r
  | Except.error _ => fallbackResponse request

/-! Concrete inputs used by witnesses and end-to-end checks. -/

/-- An analysis bundle with every key missing. -/
def emptyAnalysis : UserAnalysis :=
  { commitPatterns := { timeOfDay := none }
    emojiUsage := { count := none, topEmojis := none }
    commitLanguage := { questionableMessages := none, averageLength := none }
    repoAnalysis :=
      { languages := none, abandonedRepos := none, oneCommitWonders := none
        namingPatterns := none }
    userStats := { accountAge := none, followRatio := none, repoToStarRatio := none } }

/-- A concrete user profile (from the repository's sample payloads). -/
def baseUser : GitHubUserData :=
  { login := "testuser"
    name := some "Test User"
    bio := none
    public_repos := 2
    followers := 10
    following := 100
    created_at := "2020-01-01T00:00:00Z"
    avatar_url := "https://github.com/testuser.png" }

/-- The end-to-end scenario A input of the spec: `accountAge=1500`,
`timeOfDay={morning:0, afternoon:1, evening:0, night:4}`, `emojiUsage.count=3`,
`abandonedRepos=1`, `followRatio=0.21`. -/
def scenarioARequest : RoastRequest :=
  { user := baseUser
    repos := []
    commits := []
    analysis :=
      { commitPatterns :=
          { timeOfDay := some [("morning", 0), ("afternoon", 1), ("evening", 0), ("night", 4)] }
        emojiUsage := { count := some 3, topEmojis := none }
        commitLanguage := { questionableMessages := none, averageLength := none }
        repoAnalysis :=
          { languages := none, abandonedRepos := some 1, oneCommitWonders := none
            namingPatterns := none }
        userStats :=
          { accountAge := some 1500, followRatio := some 0.21, repoToStarRatio := none } } }

/-- A request whose `timeOfDay` mapping is present with all values zero. -/
def allZeroNightRequest : RoastRequest :=
  { user := baseUser
    repos := []
    commits := []
    analysis :=
      { emptyAnalysis with
        commitPatterns :=
          { timeOfDay := some [("morning", 0), ("afternoon", 0), ("evening", 0), ("night", 0)] } } }

/-- A request with every analysis key missing. -/
def emptyRequest : RoastRequest :=
  { user := baseUser, repos := [], commits := [], analysis := emptyAnalysis }

/-- A request on which rules 1 to 6 of the fallback produce no roast at all:
mid-aged account, some emojis, no abandoned repos, healthy follow ratio. -/
def quietRequest : RoastRequest :=
  { user := baseUser
    repos := []
    commits := []
    analysis :=
      { emptyAnalysis with
        emojiUsage := { count := some 5, topEmojis := none }
        userStats :=
          { accountAge := some 1000, followRatio := some 0.9, repoToStarRatio := none } } }

/-! Helper lemmas on the fallback rule engine. -/

/-- Rule 1/2 (account age) appends at most one roast. -/
lemma accountAgeRoasts_length_le (u : GitHubUserData) (a : UserAnalysis) :
    (accountAgeRoasts u a).length ≤ 1 := by
  unfold accountAgeRoasts; dsimp only; split_ifs <;> simp

/-- Rule 3 (night owl) appends at most one roast. -/
lemma nightOwlRoasts_length_le (a : UserAnalysis) :
    (nightOwlRoasts a).length ≤ 1 := by
  unfold nightOwlRoasts; dsimp only; split_ifs <;> simp

/-- Rule 4 (emoji) appends at most one roast. -/
lemma emojiRoastsFB_length_le (a : UserAnalysis) :
    (emojiRoastsFB a).length ≤ 1 := by
  unfold emojiRoastsFB; dsimp only; split_ifs <;> simp

/-- Rule 5 (abandoned repos) appends at most one roast. -/
lemma abandonedRoasts_length_le (a : UserAnalysis) :
    (abandonedRoasts a).length ≤ 1 := by
  unfold abandonedRoasts; dsimp only; split_ifs <;> simp

/-- Rule 6 (follow ratio) appends at most one roast. -/
lemma followRatioRoasts_length_le (a : UserAnalysis) :
    (followRatioRoasts a).length ≤ 1 := by
  unfold followRatioRoasts; dsimp only; split_ifs <;> simp

/-- Rules 1 to 6 produce at most five roasts in total. -/
lemma fallbackRuleRoasts_length_le (r : RoastRequest) :
    (fallbackRuleRoasts r).length ≤ 5 := by
  unfold fallbackRuleRoasts
  have h1 := accountAgeRoasts_length_le r.user r.analysis
  have h2 := nightOwlRoasts_length_le r.analysis
  have h3 := emojiRoastsFB_length_le r.analysis
  have h4 := abandonedRoasts_length_le r.analysis
  have h5 := followRatioRoasts_length_le r.analysis
  simp only [List.length_append]
  omega

/-- The filler list has exactly three entries. -/
lemma fillerRoasts_length : fillerRoasts.length = 3 := rfl

/-- Unfolding equation for `generate_fallback_roasts`. -/
lemma generate_fallback_roasts_eq (r : RoastRequest) :
    generate_fallback_roasts r =
      (if (fallbackRuleRoasts r).length < 3 then fallbackRuleRoasts r ++ fillerRoasts
       else fallbackRuleRoasts r).take 6 := rfl

/-- Case analysis: the truncation to six entries never actually cuts, because
the rules yield at most five roasts and fillers are only added below three. -/
lemma generate_fallback_roasts_cases (r : RoastRequest) :
    (generate_fallback_roasts r = fallbackRuleRoasts r ++ fillerRoasts
        ∧ (fallbackRuleRoasts r).length < 3)
    ∨ (generate_fallback_roasts r = fallbackRuleRoasts r
        ∧ 3 ≤ (fallbackRuleRoasts r).length) := by
  have hle := fallbackRuleRoasts_length_le r
  rw [generate_fallback_roasts_eq]
  by_cases h : (fallbackRuleRoasts r).length < 3
  · left
    rw [if_pos h]
    refine ⟨List.take_of_length_le ?_, h⟩
    simp only [List.length_append, fillerRoasts_length]
    omega
  · right
    rw [if_neg h]
    exact ⟨List.take_of_length_le (by omega), by omega⟩

/-- The rule-produced roasts always form a prefix of the final output. -/
lemma fallbackRuleRoasts_prefix_of_output (r : RoastRequest) :
    fallbackRuleRoasts r <+: generate_fallback_roasts r := by
  rcases generate_fallback_roasts_cases r with ⟨heq, -⟩ | ⟨heq, -⟩ <;> rw [heq]
  exact List.prefix_append _ _

/-! Helper lemmas on the scorer rule segments. -/

/-- Membership description for scorer rule 1. -/
lemma mem_questionableItems (a : UserAnalysis) (x : String) :
    x ∈ (questionableItems a).map Prod.snd ↔
      (a.commitLanguage.questionableMessages.getD [] ≠ [] ∧ x = "questionable_commits") := by
  unfold questionableItems; split_ifs <;> simp_all

/-- Membership description for scorer rule 2. -/
lemma mem_emojiItems (a : UserAnalysis) (x : String) :
    x ∈ (emojiItems a).map Prod.snd ↔
      ((a.emojiUsage.count.getD 0 > 15 ∧ x = "emoji_overuse")
        ∨ (¬ a.emojiUsage.count.getD 0 > 15 ∧ a.emojiUsage.count.getD 0 = 0
            ∧ x = "emoji_drought")) := by
  unfold emojiItems; split_ifs <;> simp_all

/-- Membership description for scorer rule 3. -/
lemma mem_abandonItems (a : UserAnalysis) (x : String) :
    x ∈ (abandonItems a).map Prod.snd ↔
      (a.repoAnalysis.abandonedRepos.getD 0 > 2 ∧ x = "repo_abandonment") := by
  unfold abandonItems; split_ifs <;> simp_all

/-- Membership description for scorer rule 4. -/
lemma mem_socialItems (a : UserAnalysis) (x : String) :
    x ∈ (socialItems a).map Prod.snd ↔
      (a.userStats.followRatio.getD 1 < 0.3 ∧ x = "social_awkwardness") := by
  unfold socialItems; split_ifs <;> simp_all

/-- Membership description for scorer rule 5. -/
lemma mem_nightItems (a : UserAnalysis) (x : String) :
    x ∈ (nightItems a).map Prod.snd ↔
      (dictGet (a.commitPatterns.timeOfDay.getD []) "night" 0 >
          dictValuesSum (a.commitPatterns.timeOfDay.getD []) * 0.5
        ∧ x = "night_owl_coding") := by
  unfold nightItems; dsimp only; split_ifs <;> simp_all

/-- Membership description for scorer rule 6. -/
lemma mem_lazyItems (a : UserAnalysis) (x : String) :
    x ∈ (lazyItems a).map Prod.snd ↔
      (a.commitLanguage.averageLength.getD 0 < 10 ∧ x = "lazy_commit_messages") := by
  unfold lazyItems; split_ifs <;> simp_all

/-- Membership in the factor list, decomposed per rule. -/
lemma mem_roast_factors (r : RoastRequest) (x : String) :
    x ∈ roast_factors r ↔
      (x ∈ (questionableItems r.analysis).map Prod.snd
        ∨ x ∈ (emojiItems r.analysis).map Prod.snd
        ∨ x ∈ (abandonItems r.analysis).map Prod.snd
        ∨ x ∈ (socialItems r.analysis).map Prod.snd
        ∨ x ∈ (nightItems r.analysis).map Prod.snd
        ∨ x ∈ (lazyItems r.analysis).map Prod.snd) := by
  unfold roast_factors scorerItems
  simp [List.map_append, List.mem_append]

/-- Weight bound for scorer rule 1. -/
lemma sum_questionableItems_le (a : UserAnalysis) :
    ((questionableItems a).map Prod.fst).sum ≤ 20 := by
  unfold questionableItems; split_ifs <;> simp

/-- Weight bound for scorer rule 2. -/
lemma sum_emojiItems_le (a : UserAnalysis) :
    ((emojiItems a).map Prod.fst).sum ≤ 15 := by
  unfold emojiItems; split_ifs <;> simp

/-- Weight bound for scorer rule 3. -/
lemma sum_abandonItems_le (a : UserAnalysis) :
    ((abandonItems a).map Prod.fst).sum ≤ 25 := by
  unfold abandonItems; split_ifs <;> simp

/-- Weight bound for scorer rule 4. -/
lemma sum_socialItems_le (a : UserAnalysis) :
    ((socialItems a).map Prod.fst).sum ≤ 15 := by
  unfold socialItems; split_ifs <;> simp

/-- Weight bound for scorer rule 5. -/
lemma sum_nightItems_le (a : UserAnalysis) :
    ((nightItems a).map Prod.fst).sum ≤ 20 := by
  unfold nightItems; dsimp only; split_ifs <;> simp

/-- Weight bound for scorer rule 6. -/
lemma sum_lazyItems_le (a : UserAnalysis) :
    ((lazyItems a).map Prod.fst).sum ≤ 10 := by
  unfold lazyItems; split_ifs <;> simp

/-! Claim theorems. -/

/-- C2: for every structurally valid RoastRequest, `generate_fallback_roasts`
returns between 1 and 6 strings inclusive (never an empty list), preserving
insertion order: the rules-1-through-6 roasts come first (they are a prefix of
the output) and the output is an initial segment of those roasts followed by
the fillers, i.e. the first 6 entries of that concatenation. -/
theorem c2_fallback_length_and_order (r : RoastRequest) :
    1 ≤ (generate_fallback_roasts r).length
    ∧ (generate_fallback_roasts r).length ≤ 6
    ∧ fallbackRuleRoasts r <+: generate_fallback_roasts r
    ∧ generate_fallback_roasts r <+: fallbackRuleRoasts r ++ fillerRoasts := by
  have hle := fallbackRuleRoasts_length_le r
  have hpre := fallbackRuleRoasts_prefix_of_output r
  rcases generate_fallback_roasts_cases r with ⟨heq, hlt⟩ | ⟨heq, hge⟩
  · refine ⟨?_, ?_, hpre, ?_⟩
    · rw [heq]; simp only [List.length_append, fillerRoasts_length]; omega
    · rw [heq]; simp only [List.length_append, fillerRoasts_length]; omega
    · rw [heq]
  · refine ⟨?_, ?_, hpre, ?_⟩
    · rw [heq]; omega
    · rw [heq]; omega
    · rw [heq]; exact List.prefix_append _ _

/-- C2 witness: the length and order facts hold at a concrete input. -/
theorem c2_fallback_length_and_order_witness :
    1 ≤ (generate_fallback_roasts scenarioARequest).length
    ∧ (generate_fallback_roasts scenarioARequest).length ≤ 6
    ∧ fallbackRuleRoasts scenarioARequest <+: generate_fallback_roasts scenarioARequest
    ∧ generate_fallback_roasts scenarioARequest <+:
        fallbackRuleRoasts scenarioARequest ++ fillerRoasts :=
  c2_fallback_length_and_order scenarioARequest

/-- C10: the fallback always returns between 3 and 6 strings, and whenever
rules 1-6 produce fewer than 3 roasts, exactly the 3 fillers are appended
(the truncation to 6 does not cut in that case). -/
theorem c10_fallback_at_least_three (r : RoastRequest) :
    3 ≤ (generate_fallback_roasts r).length
    ∧ (generate_fallback_roasts r).length ≤ 6
    ∧ ((fallbackRuleRoasts r).length < 3 →
        generate_fallback_roasts r = fallbackRuleRoasts r ++ fillerRoasts
        ∧ fillerRoasts.length = 3) := by
  rcases generate_fallback_roasts_cases r with ⟨heq, hlt⟩ | ⟨heq, hge⟩
  · refine ⟨?_, ?_, fun _ => ⟨heq, fillerRoasts_length⟩⟩ <;>
      rw [heq] <;> simp only [List.length_append, fillerRoasts_length] <;> omega
  · have hle := fallbackRuleRoasts_length_le r
    exact ⟨by rw [heq]; omega, by rw [heq]; omega, fun hc => absurd hc (by omega)⟩

/-- C10 witness: at a concrete input on which no rule fires, the output is
exactly the three fillers. -/
theorem c10_fallback_at_least_three_witness :
    3 ≤ (generate_fallback_roasts quietRequest).length
    ∧ (generate_fallback_roasts quietRequest).length ≤ 6
    ∧ generate_fallback_roasts quietRequest =
        fallbackRuleRoasts quietRequest ++ fillerRoasts :=
  ⟨(c10_fallback_at_least_three quietRequest).1,
   (c10_fallback_at_least_three quietRequest).2.1,
   ((c10_fallback_at_least_three quietRequest).2.2 (by with_unfolding_all decide)).1⟩

/-- C5: on the end-to-end scenario A input (`accountAge=1500`,
`timeOfDay={morning:0, afternoon:1, evening:0, night:4}`, `emojiUsage.count=3`,
`abandonedRepos=1`, `followRatio=0.21`) the fallback produces exactly the
night-owl roast, the abandoned-repos roast mentioning the count 1, and the
follow-ratio roast, in that order; neither emoji roast and no filler occurs. -/
theorem c5_scenario_a_fallback :
    generate_fallback_roasts scenarioARequest =
        [nightOwlRoast, abandonedReposRoast 1, followRatioRoast]
    ∧ emojiOveruseRoast ∉ generate_fallback_roasts scenarioARequest
    ∧ emojiDroughtRoast ∉ generate_fallback_roasts scenarioARequest
    ∧ ∀ f ∈ fillerRoasts, f ∉ generate_fallback_roasts scenarioARequest := by
  with_unfolding_all decide

/-- C1: when the GEMINI_API_KEY credential is absent, the `/generate-roasts`
handler does NOT surface the HTTP 500: the `HTTPException` raised inside the
`try` block is caught by the handler's own `except Exception` clause (Starlette
`HTTPException` subclasses `Exception`), so the caller receives a normal
HTTP 200 fallback response — contradicting the claim. -/
theorem c1_missing_key_absorbed_into_fallback :
    generate_roasts none AiOutcome.raises emptyRequest = fallbackResponse emptyRequest
    ∧ (generate_roasts none AiOutcome.raises emptyRequest).status = 200
    ∧ (generate_roasts none AiOutcome.raises emptyRequest).source = "fallback" :=
  ⟨rfl, rfl, rfl⟩

/-- Tier mapping written from the spec's words, with two-sided bounds:
score of 60 or more is highly roastable, between 30 and 59 moderately,
below 30 minimally. -/
def levelTierSpec (s : Nat) : String :=
  if 60 ≤ s then "highly_roastable"
  else if 30 ≤ s ∧ s < 60 then "moderately_roastable"
  else "minimally_roastable"

/-- The code's level chain agrees with the spec's tier mapping. -/
lemma roastLevelMessage_fst_eq (s : Nat) :
    (roastLevelMessage s).1 = levelTierSpec s := by
  unfold roastLevelMessage levelTierSpec
  split_ifs <;> first | rfl | (exfalso; omega)

/-- C3: the roastability score is a non-negative integer (a `Nat` in the
model) of at most 105, and the level label follows the spec's tier
boundaries exactly, with 59/60 and 29/30 on the expected sides. -/
theorem c3_scorer_range_and_tiers (r : RoastRequest) :
    (analyze_roast_potential r).roast_score ≤ 105
    ∧ (analyze_roast_potential r).roastability_level =
        levelTierSpec (analyze_roast_potential r).roast_score
    ∧ levelTierSpec 59 = "moderately_roastable"
    ∧ levelTierSpec 60 = "highly_roastable"
    ∧ levelTierSpec 29 = "minimally_roastable"
    ∧ levelTierSpec 30 = "moderately_roastable" := by
  refine ⟨?_, roastLevelMessage_fst_eq (roast_score r),
    by decide, by decide, by decide, by decide⟩
  show roast_score r ≤ 105
  unfold roast_score scorerItems
  simp only [List.map_append, List.sum_append]
  have h1 := sum_questionableItems_le r.analysis
  have h2 := sum_emojiItems_le r.analysis
  have h3 := sum_abandonItems_le r.analysis
  have h4 := sum_socialItems_le r.analysis
  have h5 := sum_nightItems_le r.analysis
  have h6 := sum_lazyItems_le r.analysis
  omega

/-- C3 witness: the bound and tier facts hold at a concrete input. -/
theorem c3_scorer_range_and_tiers_witness :
    (analyze_roast_potential scenarioARequest).roast_score ≤ 105
    ∧ (analyze_roast_potential scenarioARequest).roastability_level =
        levelTierSpec (analyze_roast_potential scenarioARequest).roast_score
    ∧ levelTierSpec 59 = "moderately_roastable"
    ∧ levelTierSpec 60 = "highly_roastable"
    ∧ levelTierSpec 29 = "minimally_roastable"
    ∧ levelTierSpec 30 = "moderately_roastable" :=
  c3_scorer_range_and_tiers scenarioARequest

/-- A mapping whose values are all zero reads zero under any key. -/
lemma dictGet_eq_zero_of_all_zero {m : List (String × Rat)}
    (h : ∀ p ∈ m, p.2 = 0) (k : String) : dictGet m k 0 = 0 := by
  unfold dictGet
  cases hf : m.find? (fun kv => kv.1 == k) with
  | none => rfl
  | some p =>
    have hp : p ∈ m := List.mem_of_find?_eq_some hf
    simp [h p hp]

/-- A mapping whose values are all zero sums to zero. -/
lemma dictValuesSum_eq_zero_of_all_zero {m : List (String × Rat)}
    (h : ∀ p ∈ m, p.2 = 0) : dictValuesSum m = 0 := by
  unfold dictValuesSum
  refine List.sum_eq_zero ?_
  intro x hx
  rcases List.mem_map.mp hx with ⟨p, hp, rfl⟩
  exact h p hp

/-- C4: when every `timeOfDay` value is 0 (including an empty or absent
mapping), the night-owl rule fires in neither the fallback roaster nor the
scorer: both conditions evaluate to false (the guard `0 > 0 * factor` holds
vacuously false; no division occurs in the code, hence no error). -/
theorem c4_all_zero_timeofday_no_night_rule (r : RoastRequest)
    (h : ∀ p ∈ r.analysis.commitPatterns.timeOfDay.getD [], p.2 = 0) :
    nightOwlRoasts r.analysis = [] ∧ "night_owl_coding" ∉ roast_factors r := by
  have h1 := dictGet_eq_zero_of_all_zero h "night"
  have h2 := dictValuesSum_eq_zero_of_all_zero h
  constructor
  · unfold nightOwlRoasts
    dsimp only
    rw [h1, h2]
    norm_num
  · rw [mem_roast_factors]
    simp only [mem_questionableItems, mem_emojiItems, mem_abandonItems,
      mem_socialItems, mem_nightItems, mem_lazyItems, h1, h2]
    simp

/-- C4 witness: the guard holds at a concrete all-zero `timeOfDay` input. -/
theorem c4_all_zero_timeofday_no_night_rule_witness :
    nightOwlRoasts allZeroNightRequest.analysis = []
    ∧ "night_owl_coding" ∉ roast_factors allZeroNightRequest :=
  c4_all_zero_timeofday_no_night_rule allZeroNightRequest (by with_unfolding_all decide)

/-- C6: the emoji rules of the two engines are mutually exclusive `if`/`elif`
pairs: the fallback appends the overuse roast exactly when the count exceeds
10 and otherwise the drought roast exactly when it is 0; the scorer adds the
`emoji_overuse` factor exactly when the count exceeds 15 and otherwise the
`emoji_drought` factor exactly when it is 0; never both in one component. -/
theorem c6_emoji_rules_mutually_exclusive (r : RoastRequest) :
    (emojiOveruseRoast ∈ emojiRoastsFB r.analysis ↔
        r.analysis.emojiUsage.count.getD 0 > 10)
    ∧ (emojiDroughtRoast ∈ emojiRoastsFB r.analysis ↔
        (¬ r.analysis.emojiUsage.count.getD 0 > 10
          ∧ r.analysis.emojiUsage.count.getD 0 = 0))
    ∧ ¬(emojiOveruseRoast ∈ emojiRoastsFB r.analysis
        ∧ emojiDroughtRoast ∈ emojiRoastsFB r.analysis)
    ∧ ("emoji_overuse" ∈ roast_factors r ↔
        r.analysis.emojiUsage.count.getD 0 > 15)
    ∧ ("emoji_drought" ∈ roast_factors r ↔
        (¬ r.analysis.emojiUsage.count.getD 0 > 15
          ∧ r.analysis.emojiUsage.count.getD 0 = 0))
    ∧ ¬("emoji_overuse" ∈ roast_factors r ∧ "emoji_drought" ∈ roast_factors r) := by
  have hne : emojiOveruseRoast ≠ emojiDroughtRoast := by decide
  have hne' : emojiDroughtRoast ≠ emojiOveruseRoast := Ne.symm hne
  have hbo : emojiOveruseRoast ∈ emojiRoastsFB r.analysis ↔
      r.analysis.emojiUsage.count.getD 0 > 10 := by
    unfold emojiRoastsFB; dsimp only; split_ifs <;> simp_all
  have hbd : emojiDroughtRoast ∈ emojiRoastsFB r.analysis ↔
      (¬ r.analysis.emojiUsage.count.getD 0 > 10
        ∧ r.analysis.emojiUsage.count.getD 0 = 0) := by
    unfold emojiRoastsFB; dsimp only; split_ifs <;> simp_all
  have hfo : "emoji_overuse" ∈ roast_factors r ↔
      r.analysis.emojiUsage.count.getD 0 > 15 := by
    rw [mem_roast_factors]
    simp only [mem_questionableItems, mem_emojiItems, mem_abandonItems,
      mem_socialItems, mem_nightItems, mem_lazyItems]
    simp
  have hfd : "emoji_drought" ∈ roast_factors r ↔
      (¬ r.analysis.emojiUsage.count.getD 0 > 15
        ∧ r.analysis.emojiUsage.count.getD 0 = 0) := by
    rw [mem_roast_factors]
    simp only [mem_questionableItems, mem_emojiItems, mem_abandonItems,
      mem_socialItems, mem_nightItems, mem_lazyItems]
    simp
  refine ⟨hbo, hbd, ?_, hfo, hfd, ?_⟩
  · rintro ⟨ha, hb⟩
    exact (hbd.mp hb).1 (hbo.mp ha)
  · rintro ⟨ha, hb⟩
    exact (hfd.mp hb).1 (hfo.mp ha)

/-- C6 witness: the emoji-rule facts at a concrete input with count 3. -/
theorem c6_emoji_rules_mutually_exclusive_witness :
    (emojiOveruseRoast ∈ emojiRoastsFB scenarioARequest.analysis ↔
        scenarioARequest.analysis.emojiUsage.count.getD 0 > 10)
    ∧ (emojiDroughtRoast ∈ emojiRoastsFB scenarioARequest.analysis ↔
        (¬ scenarioARequest.analysis.emojiUsage.count.getD 0 > 10
          ∧ scenarioARequest.analysis.emojiUsage.count.getD 0 = 0))
    ∧ ¬(emojiOveruseRoast ∈ emojiRoastsFB scenarioARequest.analysis
        ∧ emojiDroughtRoast ∈ emojiRoastsFB scenarioARequest.analysis)
    ∧ ("emoji_overuse" ∈ roast_factors scenarioARequest ↔
        scenarioARequest.analysis.emojiUsage.count.getD 0 > 15)
    ∧ ("emoji_drought" ∈ roast_factors scenarioARequest ↔
        (¬ scenarioARequest.analysis.emojiUsage.count.getD 0 > 15
          ∧ scenarioARequest.analysis.emojiUsage.count.getD 0 = 0))
    ∧ ¬("emoji_overuse" ∈ roast_factors scenarioARequest
        ∧ "emoji_drought" ∈ roast_factors scenarioARequest) :=
  c6_emoji_rules_mutually_exclusive scenarioARequest

/-- The request with every analysis key that `create_roast_prompt` reads
replaced by its present-or-default value. -/
def promptDefaults (r : RoastRequest) : RoastRequest :=
  { r with
    analysis :=
      { commitPatterns :=
          { timeOfDay := some (r.analysis.commitPatterns.timeOfDay.getD []) }
        emojiUsage :=
          { count := some (r.analysis.emojiUsage.count.getD 0)
            topEmojis := some (r.analysis.emojiUsage.topEmojis.getD []) }
        commitLanguage :=
          { questionableMessages :=
              some (r.analysis.commitLanguage.questionableMessages.getD [])
            averageLength := some (r.analysis.commitLanguage.averageLength.getD 0) }
        repoAnalysis :=
          { languages := some (r.analysis.repoAnalysis.languages.getD [])
            abandonedRepos := some (r.analysis.repoAnalysis.abandonedRepos.getD 0)
            oneCommitWonders := some (r.analysis.repoAnalysis.oneCommitWonders.getD 0)
            namingPatterns := some (r.analysis.repoAnalysis.namingPatterns.getD []) }
        userStats :=
          { accountAge := some (r.analysis.userStats.accountAge.getD 0)
            followRatio := some (r.analysis.userStats.followRatio.getD 0)
            repoToStarRatio := some (r.analysis.userStats.repoToStarRatio.getD 0) } } }

/-- C7: `create_roast_prompt` is a pure total function (it is a Lean `def`
into `String`, so it returns a string on every structurally valid request
without any failure path), and every missing analysis key is read through a
default: filling all missing keys with those defaults does not change the
produced prompt. -/
theorem c7_prompt_total_and_defaulted (r : RoastRequest) :
    create_roast_prompt r = create_roast_prompt (promptDefaults r) := rfl

/-- C7 witness: the defaulting equation at a concrete request with every
analysis key missing. -/
theorem c7_prompt_total_and_defaulted_witness :
    create_roast_prompt emptyRequest = create_roast_prompt (promptDefaults emptyRequest) :=
  c7_prompt_total_and_defaulted emptyRequest

/-- Stable insert for the spec-side count-descending sort. -/
def insertByCount (p : String × Rat) : List (String × Rat) → List (String × Rat)
  | [] => [p]
  | q :: rest => if q.2 ≥ p.2 then q :: insertByCount p rest else p :: q :: rest

/-- Spec-side stable sort of a languages mapping by count, descending. -/
def sortByCountDesc : List (String × Rat) → List (String × Rat)
  | [] => []
  | p :: rest => insertByCount p (sortByCountDesc rest)

/-- Spec-side reading of "3 most-frequent languages": the three keys of
highest count (stable, descending by count). -/
def topThreeByCount (langs : List (String × Rat)) : List String :=
  ((sortByCountDesc langs).map Prod.fst).take 3

/-- A languages mapping whose first three keys differ from its three
highest-count keys. -/
def exampleLanguages : List (String × Rat) :=
  [("C", 1), ("Python", 5), ("Go", 2), ("Rust", 9), ("Java", 4)]

/-- An analysis bundle holding `exampleLanguages`. -/
def exampleLangAnalysis : UserAnalysis :=
  { emptyAnalysis with
    repoAnalysis := { emptyAnalysis.repoAnalysis with languages := some exampleLanguages } }

/-- C8: the "Primary Languages" selection of `create_roast_prompt` is the
first 3 keys of the languages mapping in insertion order, for every mapping;
on a concrete mapping whose highest-count keys differ, the insertion-order
prefix (not the count-sorted one) is what the prompt shows. -/
theorem c8_primary_languages_insertion_order :
    (∀ a : UserAnalysis,
        promptLanguages a = ((a.repoAnalysis.languages.getD []).map Prod.fst).take 3)
    ∧ promptLanguages exampleLangAnalysis = ["C", "Python", "Go"]
    ∧ topThreeByCount exampleLanguages = ["Rust", "Python", "Java"]
    ∧ promptLanguages exampleLangAnalysis ≠ topThreeByCount exampleLanguages :=
  ⟨fun _ => rfl, by with_unfolding_all decide, by with_unfolding_all decide,
    by with_unfolding_all decide⟩

/-- C9: the default for a missing `followRatio` key differs between the two
rule engines: the fallback defaults it to 0, so its follow-ratio roast fires
(0 < 0.5) and appears in the final output; the scorer defaults it to 1, so
its `social_awkwardness` factor does not fire (1 is not < 0.3). -/
theorem c9_follow_ratio_default_mismatch (r : RoastRequest)
    (h : r.analysis.userStats.followRatio = none) :
    followRatioRoasts r.analysis = [followRatioRoast]
    ∧ followRatioRoast ∈ generate_fallback_roasts r
    ∧ "social_awkwardness" ∉ roast_factors r := by
  have hseg : followRatioRoasts r.analysis = [followRatioRoast] := by
    unfold followRatioRoasts
    dsimp only
    rw [h, Option.getD_none, if_pos (by norm_num : (0 : Rat) < 0.5)]
  refine ⟨hseg, ?_, ?_⟩
  · have hmem : followRatioRoast ∈ fallbackRuleRoasts r := by
      unfold fallbackRuleRoasts
      rw [hseg]
      simp
    exact (fallbackRuleRoasts_prefix_of_output r).subset hmem
  · have hn : ¬((1 : Rat) < 0.3) := by norm_num
    rw [mem_roast_factors]
    simp only [mem_questionableItems, mem_emojiItems, mem_abandonItems,
      mem_socialItems, mem_nightItems, mem_lazyItems, h, Option.getD_none]
    simp [hn]

/-- C9 witness: the mismatch at a concrete request lacking `followRatio`. -/
theorem c9_follow_ratio_default_mismatch_witness :
    followRatioRoasts emptyRequest.analysis = [followRatioRoast]
    ∧ followRatioRoast ∈ generate_fallback_roasts emptyRequest
    ∧ "social_awkwardness" ∉ roast_factors emptyRequest :=
  c9_follow_ratio_default_mismatch emptyRequest rfl

end GitShame

